import Mathlib

/-!
# Verification of libjass's web renderer style core

A shallow embedding of `src/renderers/web/span-styles.ts` (the `SpanStyles`
class) and `src/renderers/web/animation-collection.ts` (the
`AnimationCollection` class), together with theorems settling the frozen
claims about the style-resolution engine.

Modelling conventions:
* JavaScript numbers are modelled as exact rationals (`ℚ`); the claims are
  about the real-number semantics of the algorithms, not float rounding.
* A value that can also be JavaScript `null` or `undefined` is modelled by
  `JsArg α`.  The setters' strict comparison `x !== null` is `x ≠ JsArg.null`,
  which matches JavaScript (`undefined !== null` is true, `null !== null` is
  false).
* Computed display values that can be `NaN` (e.g. arithmetic on `undefined`)
  are modelled by `JsNum`.
* String-built output (transform lists, SVG filter primitives, keyframe
  rules) is modelled as the list of emitted structured components, in
  emission order; serialisation to text is not modelled.
-/

namespace Libjass

/-- A JavaScript value of underlying type `α` that may also be `null` or
`undefined`.  This is the type of every attribute slot of `SpanStyles` and of
every setter argument. -/
inductive JsArg (α : Type) where
  | val (a : α)
  | null
  | undef
deriving DecidableEq, Repr

/-- `SpanStyles._valueOrDefault`:
`(newValue !== null) ? newValue : defaultValue`.  Only the exact value `null`
is replaced by the default; `undefined` (and any concrete value) passes
through unchanged. -/
def valueOrDefault {α : Type} (newValue : JsArg α) (defaultValue : α) : JsArg α :=
  match newValue with
  | .null => .val defaultValue
  | x => x

/-- A computed JavaScript number: a finite value, `NaN`, or a signed
infinity.  Used for display values produced by arithmetic
(`fontScaleY / fontScaleX`, `-1 * rotationZ`). -/
inductive JsNum where
  | num (q : ℚ)
  | nan
  | inf
  | ninf
deriving DecidableEq, Repr

/-- Numeric coercion of a JavaScript value, as performed by arithmetic
operators: `null` coerces to `0`, `undefined` to `NaN`. -/
def toNum (v : JsArg ℚ) : JsNum :=
  match v with
  | .val q => .num q
  | .null => .num 0
  | .undef => .nan

/-- JavaScript unary negation / multiplication by `-1` (IEEE-754 rules;
`-0` is identified with `0`, which also matches its rendering `"0"`). -/
def jsNeg (v : JsNum) : JsNum :=
  match v with
  | .num q => .num (-q)
  | .nan => .nan
  | .inf => .ninf
  | .ninf => .inf

/-- JavaScript division (IEEE-754 rules on the modelled value space). -/
def jsDiv (a b : JsNum) : JsNum :=
  match a, b with
  | .num x, .num y =>
    if y ≠ 0 then .num (x / y)
    else if x > 0 then .inf
    else if x < 0 then .ninf
    else .nan
  | .num x, .inf => if x = x then .num 0 else .num 0
  | .num _, .ninf => .num 0
  | .inf, .num y => if y < 0 then .ninf else .inf
  | .ninf, .num y => if y < 0 then .inf else .ninf
  | _, _ => .nan

/-- JavaScript multiplication, for scaling stored outline dimensions. -/
def jsMul (a b : JsNum) : JsNum :=
  match a, b with
  | .num x, .num y => .num (x * y)
  | .nan, _ => .nan
  | _, .nan => .nan
  | .inf, .num y => if y = 0 then .nan else if y < 0 then .ninf else .inf
  | .num x, .inf => if x = 0 then .nan else if x < 0 then .ninf else .inf
  | .ninf, .num y => if y = 0 then .nan else if y < 0 then .inf else .ninf
  | .num x, .ninf => if x = 0 then .nan else if x < 0 then .inf else .ninf
  | .inf, .inf => .inf
  | .inf, .ninf => .ninf
  | .ninf, .inf => .ninf
  | .ninf, .ninf => .inf

/-- An RGBA colour (`libjass.parts.Color`); only stored and compared here. -/
structure Color where
  red : ℚ
  green : ℚ
  blue : ℚ
  alpha : ℚ
deriving DecidableEq, Repr

/-- The `bold` attribute holds either a boolean or a numeric font weight. -/
inductive BoldVal where
  | ofBool (b : Bool)
  | weight (q : ℚ)
deriving DecidableEq, Repr

/-- The immutable base style of a dialogue (`libjass.types.Style`), restricted
to the fields `SpanStyles` reads. -/
structure Style where
  italic : Bool
  bold : BoldVal
  underline : Bool
  strikeThrough : Bool
  outlineThickness : ℚ
  shadowDepth : ℚ
  fontName : String
  fontSize : ℚ
  fontScaleX : ℚ
  fontScaleY : ℚ
  letterSpacing : ℚ
  rotationZ : ℚ
  primaryColor : Color
  secondaryColor : Color
  outlineColor : Color
  shadowColor : Color
deriving DecidableEq, Repr

/-- The mutable state of a `SpanStyles` instance: the immutable default style
and scale factors fixed at construction, plus one slot per attribute. -/
structure SpanStyles where
  defaultStyle : Style
  scaleX : ℚ
  scaleY : ℚ
  italic : JsArg Bool
  bold : JsArg BoldVal
  underline : JsArg Bool
  strikeThrough : JsArg Bool
  outlineWidth : JsArg ℚ
  outlineHeight : JsArg ℚ
  shadowDepthX : JsArg ℚ
  shadowDepthY : JsArg ℚ
  fontName : JsArg String
  fontSize : JsArg ℚ
  fontScaleX : JsArg ℚ
  fontScaleY : JsArg ℚ
  letterSpacing : JsArg ℚ
  rotationX : JsArg ℚ
  rotationY : JsArg ℚ
  rotationZ : JsArg ℚ
  skewX : JsArg ℚ
  skewY : JsArg ℚ
  primaryColor : JsArg Color
  secondaryColor : JsArg Color
  outlineColor : JsArg Color
  shadowColor : JsArg Color
  primaryAlpha : JsArg ℚ
  secondaryAlpha : JsArg ℚ
  outlineAlpha : JsArg ℚ
  shadowAlpha : JsArg ℚ
  blur : JsArg ℚ
  gaussianBlur : JsArg ℚ
deriving DecidableEq, Repr

/-- `set italic`. -/
def setItalic (value : JsArg Bool) (s : SpanStyles) : SpanStyles :=
  { s with italic := valueOrDefault value s.defaultStyle.italic }

/-- `set bold`. -/
def setBold (value : JsArg BoldVal) (s : SpanStyles) : SpanStyles :=
  { s with bold := valueOrDefault value s.defaultStyle.bold }

/-- `set underline`. -/
def setUnderline (value : JsArg Bool) (s : SpanStyles) : SpanStyles :=
  { s with underline := valueOrDefault value s.defaultStyle.underline }

/-- `set strikeThrough`. -/
def setStrikeThrough (value : JsArg Bool) (s : SpanStyles) : SpanStyles :=
  { s with strikeThrough := valueOrDefault value s.defaultStyle.strikeThrough }

/-- `set outlineWidth` (defaults to the style's `outlineThickness`). -/
def setOutlineWidth (value : JsArg ℚ) (s : SpanStyles) : SpanStyles :=
  { s with outlineWidth := valueOrDefault value s.defaultStyle.outlineThickness }

/-- `set outlineHeight` (defaults to the style's `outlineThickness`). -/
def setOutlineHeight (value : JsArg ℚ) (s : SpanStyles) : SpanStyles :=
  { s with outlineHeight := valueOrDefault value s.defaultStyle.outlineThickness }

/-- `set shadowDepthX` (defaults to the style's `shadowDepth`). -/
def setShadowDepthX (value : JsArg ℚ) (s : SpanStyles) : SpanStyles :=
  { s with shadowDepthX := valueOrDefault value s.defaultStyle.shadowDepth }

/-- `set shadowDepthY` (defaults to the style's `shadowDepth`). -/
def setShadowDepthY (value : JsArg ℚ) (s : SpanStyles) : SpanStyles :=
  { s with shadowDepthY := valueOrDefault value s.defaultStyle.shadowDepth }

/-- `set blur` (defaults to the constant `0`, not a style field). -/
def setBlur (value : JsArg ℚ) (s : SpanStyles) : SpanStyles :=
  { s with blur := valueOrDefault value 0 }

/-- `set gaussianBlur` (defaults to the constant `0`, not a style field). -/
def setGaussianBlur (value : JsArg ℚ) (s : SpanStyles) : SpanStyles :=
  { s with gaussianBlur := valueOrDefault value 0 }

/-- `set fontName`. -/
def setFontName (value : JsArg String) (s : SpanStyles) : SpanStyles :=
  { s with fontName := valueOrDefault value s.defaultStyle.fontName }

/-- `set fontSize`. -/
def setFontSize (value : JsArg ℚ) (s : SpanStyles) : SpanStyles :=
  { s with fontSize := valueOrDefault value s.defaultStyle.fontSize }

/-- `set fontScaleX`. -/
def setFontScaleX (value : JsArg ℚ) (s : SpanStyles) : SpanStyles :=
  { s with fontScaleX := valueOrDefault value s.defaultStyle.fontScaleX }

/-- `set fontScaleY`. -/
def setFontScaleY (value : JsArg ℚ) (s : SpanStyles) : SpanStyles :=
  { s with fontScaleY := valueOrDefault value s.defaultStyle.fontScaleY }

/-- `set letterSpacing`. -/
def setLetterSpacing (value : JsArg ℚ) (s : SpanStyles) : SpanStyles :=
  { s with letterSpacing := valueOrDefault value s.defaultStyle.letterSpacing }

/-- `set rotationX`: stores the raw value, no defaulting. -/
def setRotationX (value : JsArg ℚ) (s : SpanStyles) : SpanStyles :=
  { s with rotationX := value }

/-- `set rotationY`: stores the raw value, no defaulting. -/
def setRotationY (value : JsArg ℚ) (s : SpanStyles) : SpanStyles :=
  { s with rotationY := value }

/-- `set rotationZ` (defaults to the style's `rotationZ`). -/
def setRotationZ (value : JsArg ℚ) (s : SpanStyles) : SpanStyles :=
  { s with rotationZ := valueOrDefault value s.defaultStyle.rotationZ }

/-- `set skewX`: stores the raw value, no defaulting. -/
def setSkewX (value : JsArg ℚ) (s : SpanStyles) : SpanStyles :=
  { s with skewX := value }

/-- `set skewY`: stores the raw value, no defaulting. -/
def setSkewY (value : JsArg ℚ) (s : SpanStyles) : SpanStyles :=
  { s with skewY := value }

/-- `set primaryColor`. -/
def setPrimaryColor (value : JsArg Color) (s : SpanStyles) : SpanStyles :=
  { s with primaryColor := valueOrDefault value s.defaultStyle.primaryColor }

/-- `set secondaryColor`. -/
def setSecondaryColor (value : JsArg Color) (s : SpanStyles) : SpanStyles :=
  { s with secondaryColor := valueOrDefault value s.defaultStyle.secondaryColor }

/-- `set outlineColor`. -/
def setOutlineColor (value : JsArg Color) (s : SpanStyles) : SpanStyles :=
  { s with outlineColor := valueOrDefault value s.defaultStyle.outlineColor }

/-- `set shadowColor`. -/
def setShadowColor (value : JsArg Color) (s : SpanStyles) : SpanStyles :=
  { s with shadowColor := valueOrDefault value s.defaultStyle.shadowColor }

/-- `set primaryAlpha`: stores the raw value. -/
def setPrimaryAlpha (value : JsArg ℚ) (s : SpanStyles) : SpanStyles :=
  { s with primaryAlpha := value }

/-- `set secondaryAlpha`: stores the raw value. -/
def setSecondaryAlpha (value : JsArg ℚ) (s : SpanStyles) : SpanStyles :=
  { s with secondaryAlpha := value }

/-- `set outlineAlpha`: stores the raw value. -/
def setOutlineAlpha (value : JsArg ℚ) (s : SpanStyles) : SpanStyles :=
  { s with outlineAlpha := value }

/-- `set shadowAlpha`: stores the raw value. -/
def setShadowAlpha (value : JsArg ℚ) (s : SpanStyles) : SpanStyles :=
  { s with shadowAlpha := value }

/-- `SpanStyles.reset(newStyle)`.  If the argument is `undefined` or `null`
it is replaced by the dialogue's default style; then every attribute is
reinitialised: most through their setters with the style's (non-null) field,
rotation-X/Y and skew-X/Y directly to `null`, the alphas to `null`, and the
blur pair through their setters with `null` (hence to `0`). -/
def reset (s : SpanStyles) (newStyleArg : JsArg Style) : SpanStyles :=
  let newStyle := match newStyleArg with
    | .val st => st
    | .null => s.defaultStyle
    | .undef => s.defaultStyle
  let s := setItalic (.val newStyle.italic) s
  let s := setBold (.val newStyle.bold) s
  let s := setUnderline (.val newStyle.underline) s
  let s := setStrikeThrough (.val newStyle.strikeThrough) s
  let s := setOutlineWidth (.val newStyle.outlineThickness) s
  let s := setOutlineHeight (.val newStyle.outlineThickness) s
  let s := setShadowDepthX (.val newStyle.shadowDepth) s
  let s := setShadowDepthY (.val newStyle.shadowDepth) s
  let s := setFontName (.val newStyle.fontName) s
  let s := setFontSize (.val newStyle.fontSize) s
  let s := setFontScaleX (.val newStyle.fontScaleX) s
  let s := setFontScaleY (.val newStyle.fontScaleY) s
  let s := setLetterSpacing (.val newStyle.letterSpacing) s
  let s := { s with rotationX := JsArg.null, rotationY := JsArg.null,
                    rotationZ := JsArg.val newStyle.rotationZ,
                    skewX := JsArg.null, skewY := JsArg.null }
  let s := setPrimaryColor (.val newStyle.primaryColor) s
  let s := setSecondaryColor (.val newStyle.secondaryColor) s
  let s := setOutlineColor (.val newStyle.outlineColor) s
  let s := setShadowColor (.val newStyle.shadowColor) s
  let s := setPrimaryAlpha .null s
  let s := setSecondaryAlpha .null s
  let s := setOutlineAlpha .null s
  let s := setShadowAlpha .null s
  let s := setBlur .null s
  let s := setGaussianBlur .null s
  s

/-- One component of the CSS `transform` string built by `setStylesOnSpan`,
in the order the source appends them.  Components that the source renders by
raw template interpolation of a stored slot carry that `JsArg`; components
the source computes arithmetically carry the computed `JsNum`. -/
inductive TransformComponent where
  /-- `scaleX(${fontScaleX})` — raw interpolation of the stored slot. -/
  | scaleXraw (v : JsArg ℚ)
  /-- `scaleY(${fontScaleY})` — raw interpolation of the stored slot. -/
  | scaleYraw (v : JsArg ℚ)
  /-- `scaleY(${(fontScaleY / fontScaleX).toFixed(3)})` — computed quotient. -/
  | scaleYdiv (v : JsNum)
  /-- `rotateY(${rotationY}deg)`. -/
  | rotateY (v : JsArg ℚ)
  /-- `rotateX(${rotationX}deg)`. -/
  | rotateX (v : JsArg ℚ)
  /-- `rotateZ(${-1 * rotationZ}deg)` — carries the negated value. -/
  | rotateZ (v : JsNum)
  /-- `matrix(1, ${skewY}, ${skewX}, 1, 0, 0)` — carries `(skewY, skewX)`
  after `_valueOrDefault(·, 0)`. -/
  | matrixSkew (skewY skewX : JsArg ℚ)
deriving DecidableEq, Repr

/-- The transform-assembly block of `setStylesOnSpan` (lines 194–221):
sequential appends guarded exactly as in the source. -/
def transformOf (s : SpanStyles) (isTextOnlySpan : Bool) : List TransformComponent :=
  let transform : List TransformComponent := []
  let transform := transform ++
    (if isTextOnlySpan then
      (if s.fontScaleY ≠ s.fontScaleX then
        [.scaleYdiv (jsDiv (toNum s.fontScaleY) (toNum s.fontScaleX))] else [])
    else
      (if s.fontScaleX ≠ .val 1 then [.scaleXraw s.fontScaleX] else []) ++
      (if s.fontScaleY ≠ .val 1 then [.scaleYraw s.fontScaleY] else []))
  let transform := transform ++
    (if s.rotationY ≠ .null then [.rotateY s.rotationY] else [])
  let transform := transform ++
    (if s.rotationX ≠ .null then [.rotateX s.rotationX] else [])
  let transform := transform ++
    (if s.rotationZ ≠ .val 0 then [.rotateZ (jsNeg (toNum s.rotationZ))] else [])
  let transform := transform ++
    (if s.skewX ≠ .null ∨ s.skewY ≠ .null then
      [.matrixSkew (valueOrDefault s.skewY 0) (valueOrDefault s.skewX 0)] else [])
  transform

/-- The SVG outline walk (`setStylesOnSpan`, lines 255–294): the list of
`feMorphology` dilation radii `(x, y)` emitted through `addOutline`, in
emission order.

Every emitted radius is the square root of a rational, so a radius `r` is
encoded by its square `r²` (the map `r ↦ r²` is injective on non-negative
reals, hence list and set equalities of encoded radii coincide with those of
the real radii).  A pair in the returned list therefore encodes
`(√fst, √snd)`; the loop variable `x = j·inc` is encoded as `(j·inc)²` and
the orthogonal extent `(oh/ow)·√(ow² − x²)` as `oh²·(ow² − x²)/ow²`.

`ow`, `oh` are the scaled outline width/height, `inc` the step increment.
The source's `for (x = 0; x <= ow; x += inc)` runs for `x = j·inc`,
`j = 0 … ⌊ow/inc⌋`, and the trailing `if (x !== ow + inc)` fires exactly
when `⌊ow/inc⌋·inc ≠ ow` (the source loop terminates only for `inc > 0`,
which holds for every increment the caller constructs). -/
def svgOutlinePoints (ow oh inc : ℚ) : List (ℚ × ℚ) :=
  if 0 < ow ∨ 0 < oh then
    if ow ≤ oh then
      if 0 < ow then
        (List.range (Int.toNat ⌊ow / inc⌋ + 1)).map
          (fun (j : ℕ) => (((j : ℚ) * inc) ^ 2, oh ^ 2 * (ow ^ 2 - ((j : ℚ) * inc) ^ 2) / ow ^ 2)) ++
        (if ((Int.toNat ⌊ow / inc⌋ : ℚ)) * inc ≠ ow then [(ow ^ 2, 0)] else [])
      else [(0, oh ^ 2)]
    else
      if 0 < oh then
        (List.range (Int.toNat ⌊oh / inc⌋ + 1)).map
          (fun (j : ℕ) => (ow ^ 2 * (oh ^ 2 - ((j : ℚ) * inc) ^ 2) / oh ^ 2, ((j : ℚ) * inc) ^ 2)) ++
        (if ((Int.toNat ⌊oh / inc⌋ : ℚ)) * inc ≠ oh then [(0, oh ^ 2)] else [])
      else [(ow ^ 2, 0)]
  else []

/-- Iteration count of the fallback inner loop `for (y = 0; y <= maxY; y++)`
at integer abscissa `x`, where
`maxY = (ow === 0) ? oh : oh * Math.sqrt(1 - x²/ow²)`.
For `maxY ≥ 0` the loop runs `⌊maxY⌋ + 1` times; for a non-negative real
`q`, `⌊√q⌋ = Nat.sqrt ⌊q⌋`, and here `maxY² = oh²·(ow² − x²)/ow²`.
The `oh < 0` branches model `maxY < 0` (no iteration) except at `x² = ow²`
where `maxY = oh·0 = 0` and `y = 0` still iterates once. -/
def fallbackYCount (ow oh : ℚ) (x : ℕ) : ℕ :=
  if ow = 0 then
    (if 0 ≤ oh then Int.toNat ⌊oh⌋ + 1 else 0)
  else
    if 0 ≤ oh then
      Nat.sqrt (Int.toNat ⌊oh ^ 2 * (ow ^ 2 - (x : ℚ) ^ 2) / ow ^ 2⌋) + 1
    else
      if (x : ℚ) ^ 2 = ow ^ 2 then 1 else 0

/-- The fallback (no SVG filters) outline walk (`setStylesOnSpan`,
lines 317–344): the list of `text-shadow` offsets `(x, y)` emitted through
`addOutline`, in emission order.  The outer loop
`for (x = 0; x <= ow; x++)` runs over the integers `0 … ⌊ow⌋`; at each
`(x, y)` the source emits `(x, y)` and the sign-flipped copies that do not
duplicate an axis point. -/
def fallbackPoints (ow oh : ℚ) : List (ℤ × ℤ) :=
  if 0 < ow ∨ 0 < oh then
    (List.range (if 0 ≤ ow then Int.toNat ⌊ow⌋ + 1 else 0)).flatMap fun x =>
      (List.range (fallbackYCount ow oh x)).flatMap fun y =>
        [((x : ℤ), (y : ℤ))] ++
        (if x ≠ 0 then [(-(x : ℤ), (y : ℤ))] else []) ++
        (if y ≠ 0 then [((x : ℤ), -(y : ℤ))] else []) ++
        (if x ≠ 0 ∧ y ≠ 0 then [(-(x : ℤ), -(y : ℤ))] else [])
  else []

/-- The outline-walk step increment (`setStylesOnSpan`, line 255):
`(!preciseOutlines && gaussianBlur > 0) ? gaussianBlur : 1`.
A stored `undefined` fails the `> 0` comparison (`NaN > 0` is false). -/
def outlineIncrement (preciseOutlines : Bool) (gaussianBlur : JsArg ℚ) : ℚ :=
  match gaussianBlur with
  | .val g => if ¬preciseOutlines ∧ 0 < g then g else 1
  | _ => 1

/-- The outputs of `setStylesOnSpan` that the claims observe. -/
structure RenderOutput where
  /-- The components of the `transform` string, in append order. -/
  transform : List TransformComponent
  /-- Whether `span.style.display = "inline-block"` was assigned
  (done exactly when the transform string is non-empty). -/
  spanDisplayInlineBlock : Bool
  /-- SVG mode: the emitted dilation radii (squared-radius encoding);
  empty in fallback mode or when the outline guard fails. -/
  svgDilations : List (ℚ × ℚ)
  /-- Fallback mode: the outline-derived `text-shadow` offsets;
  empty in SVG mode or when the outline guard fails. -/
  fallbackShadows : List (ℤ × ℤ)
  /-- Whether the drop-shadow entry was appended
  (`shadowDepthX !== 0 || shadowDepthY !== 0`). -/
  dropShadowAppended : Bool
  /-- Whether `filterWrapperSpan.style.display = "inline-block"` was assigned
  (`rotationX !== 0 || rotationY !== 0`). -/
  wrapperDisplayInlineBlock : Bool
deriving DecidableEq, Repr

/-- `SpanStyles.setStylesOnSpan`, restricted to the outputs the claims
observe.  The scaled outline dimensions are `scaleX·outlineWidth` and
`scaleY·outlineHeight`; the walks are entered only when both are finite
numbers (with a stored `undefined` the source would emit NaN-radius
primitives; no claim concerns that corner). -/
def setStylesOnSpan (s : SpanStyles) (isTextOnlySpan : Bool)
    (enableSvg preciseOutlines : Bool) : RenderOutput :=
  let transform := transformOf s isTextOnlySpan
  let scaledOW := jsMul (.num s.scaleX) (toNum s.outlineWidth)
  let scaledOH := jsMul (.num s.scaleY) (toNum s.outlineHeight)
  let inc := outlineIncrement preciseOutlines s.gaussianBlur
  { transform := transform,
    spanDisplayInlineBlock := transform ≠ [],
    svgDilations :=
      if enableSvg then
        match scaledOW, scaledOH with
        | .num ow, .num oh => svgOutlinePoints ow oh inc
        | _, _ => []
      else [],
    fallbackShadows :=
      if enableSvg then []
      else
        match scaledOW, scaledOH with
        | .num ow, .num oh => fallbackPoints ow oh
        | _, _ => [],
    dropShadowAppended := s.shadowDepthX ≠ .val 0 ∨ s.shadowDepthY ≠ .val 0,
    wrapperDisplayInlineBlock := s.rotationX ≠ .val 0 ∨ s.rotationY ≠ .val 0 }

/-- The process-wide font-size cache `SpanStyles._fontSizeCache`: a map from
font family to a map from requested pixel size to the derived scale factor,
modelled as nested partial functions. -/
def FontCache : Type := String → Option (ℚ → Option ℚ)

/-- The initial (empty) cache. -/
def emptyFontCache : FontCache := fun _ => none

/-- `SpanStyles._getFontSize(fontFamily, lineHeight, fontSizeElement)`, with
the cache threaded explicitly and the measurement surface abstracted as
`measure : fontFamily → pixelSize → renderedHeight`.  Returns the resolved
value, the updated cache, and whether the measurement surface was read.
On a family miss the source installs a fresh empty inner map and proceeds;
on a size miss it reads the surface once and caches
`lineHeight² / renderedHeight`. -/
def getFontSize (measure : String → ℚ → ℚ) (fontFamily : String)
    (lineHeight : ℚ) (cache : FontCache) : ℚ × FontCache × Bool :=
  match cache fontFamily with
  | some innerMap =>
    match innerMap lineHeight with
    | some v => (v, cache, false)
    | none =>
      let v := lineHeight * lineHeight / measure fontFamily lineHeight
      (v,
       fun f => if f = fontFamily then
         some (fun ht => if ht = lineHeight then some v else innerMap ht)
       else cache f,
       true)
  | none =>
    let innerMap : ℚ → Option ℚ := fun _ => none
    let v := lineHeight * lineHeight / measure fontFamily lineHeight
    (v,
     fun f => if f = fontFamily then
       some (fun ht => if ht = lineHeight then some v else innerMap ht)
     else cache f,
     true)

/-- Run a sequence of font-size lookups against the shared cache, returning
the final cache and the list of `(family, size)` keys whose lookup read the
measurement surface, in order. -/
def runFontCalls (measure : String → ℚ → ℚ) :
    List (String × ℚ) → FontCache → FontCache × List (String × ℚ)
  | [], cache => (cache, [])
  | (f, sz) :: rest, cache =>
    let r := getFontSize measure f sz cache
    let rec2 := runFontCalls measure rest r.2.1
    (rec2.1, (if r.2.2 then [(f, sz)] else []) ++ rec2.2)

/-- Whether the cache already holds a value for `(fontFamily, lineHeight)`. -/
def fontCacheHas (cache : FontCache) (fontFamily : String) (lineHeight : ℚ) : Prop :=
  ∃ m v, cache fontFamily = some m ∧ m lineHeight = some v

/-- One keyframe (`libjass.renderers.Keyframe`): a time and a list of
CSS property/value pairs. -/
structure Keyframe where
  time : ℚ
  properties : List (String × String)
deriving DecidableEq, Repr

/-- The state of an `AnimationCollection`.  String-accumulated output is
modelled structurally: `cssBlocks` holds one entry per emitted
`@keyframes` rule block (the vendor-prefixed copy flagged `true`), each rule
a `(percentage, properties)` pair; `animationStyle` holds the comma-joined
`"<name> <duration>s <timingFunction>"` entries; `animationDelays` the
`name → start` table in insertion order. -/
structure AnimationCollection where
  id : String
  rate : ℚ
  cssBlocks : List (Bool × String × List (ℚ × List (String × String)))
  animationStyle : List (String × ℚ × String)
  animationDelays : List (String × JsArg ℚ)
  numAnimations : ℕ
deriving Repr

/-- The `AnimationCollection` constructor; `id` stands for
`renderer.id + "-" + nextId++` and `rate` for `renderer.clock.rate`. -/
def AnimationCollection.init (id : String) (rate : ℚ) : AnimationCollection :=
  { id := id, rate := rate, cssBlocks := [], animationStyle := [],
    animationDelays := [], numAnimations := 0 }

/-- Decimal digit string of a natural number, exactly as a JavaScript
template literal renders the animation counter. -/
def decDigits (n : ℕ) : List Char :=
  if n < 10 then [Nat.digitChar n]
  else decDigits (n / 10) ++ [Nat.digitChar (n % 10)]
decreasing_by exact Nat.div_lt_self (by omega) (by omega)

/-- The name generated for the `n`-th animation of an instance:
`animation-<id>-<n>`. -/
def animationName (id : String) (n : ℕ) : String :=
  "animation-" ++ id ++ "-" ++ (decDigits n).asString

/-- Numeric coercion of the `start`/`end` locals of `add`: they are `null`
only when the keyframe list is empty (JavaScript coerces `null` to `0` in
the arithmetic; the `undef` case is unreachable). -/
def jsArgNumOrZero (v : JsArg ℚ) : ℚ :=
  match v with
  | .val q => q
  | _ => 0

/-- `AnimationCollection.add(timingFunction, keyframes)`.
`start`/`end` are the first/last keyframe times (or `null` when there are
none); each keyframe contributes one rule at percentage
`100 * ((end − start === 0) ? 1 : (time − start)/(end − start))`; the rules
are appended under a fresh name `animation-<id>-<numAnimations++>` as a
vendor-prefixed and a standard block; the composite directive gains
`name (end − start)/rate timingFunction` and the delay table `name → start`. -/
def add (timingFunction : String) (keyframes : List Keyframe)
    (st : AnimationCollection) : AnimationCollection :=
  let startArg : JsArg ℚ := match keyframes.head? with
    | some k => .val k.time
    | none => .null
  let endArg : JsArg ℚ := match keyframes.getLast? with
    | some k => .val k.time
    | none => .null
  let start := jsArgNumOrZero startArg
  let endT := jsArgNumOrZero endArg
  let rules := keyframes.map fun k =>
    (100 * (if endT - start = 0 then 1 else (k.time - start) / (endT - start)),
     k.properties)
  let name := animationName st.id st.numAnimations
  { st with
    cssBlocks := st.cssBlocks ++ [(true, name, rules), (false, name, rules)],
    animationStyle := st.animationStyle ++ [(name, (endT - start) / st.rate, timingFunction)],
    animationDelays := st.animationDelays ++ [(name, startArg)],
    numAnimations := st.numAnimations + 1 }

/-- The `SpanStyles` constructor: record the default style and scales, then
`reset(null)`.  The attribute fields of the pre-`reset` record are all
overwritten by `reset`; `null` placeholders stand for the uninitialised
slots. -/
def SpanStyles.init (style : Style) (scaleX scaleY : ℚ) : SpanStyles :=
  reset
    { defaultStyle := style, scaleX := scaleX, scaleY := scaleY,
      italic := .null, bold := .null, underline := .null, strikeThrough := .null,
      outlineWidth := .null, outlineHeight := .null,
      shadowDepthX := .null, shadowDepthY := .null,
      fontName := .null, fontSize := .null,
      fontScaleX := .null, fontScaleY := .null, letterSpacing := .null,
      rotationX := .null, rotationY := .null, rotationZ := .null,
      skewX := .null, skewY := .null,
      primaryColor := .null, secondaryColor := .null,
      outlineColor := .null, shadowColor := .null,
      primaryAlpha := .null, secondaryAlpha := .null,
      outlineAlpha := .null, shadowAlpha := .null,
      blur := .null, gaussianBlur := .null }
    .null

/-- One public setter invocation, as driven by the tag-processing layer. -/
inductive SetterCall where
  | italic (v : JsArg Bool)
  | bold (v : JsArg BoldVal)
  | underline (v : JsArg Bool)
  | strikeThrough (v : JsArg Bool)
  | outlineWidth (v : JsArg ℚ)
  | outlineHeight (v : JsArg ℚ)
  | shadowDepthX (v : JsArg ℚ)
  | shadowDepthY (v : JsArg ℚ)
  | blur (v : JsArg ℚ)
  | gaussianBlur (v : JsArg ℚ)
  | fontName (v : JsArg String)
  | fontSize (v : JsArg ℚ)
  | fontScaleX (v : JsArg ℚ)
  | fontScaleY (v : JsArg ℚ)
  | letterSpacing (v : JsArg ℚ)
  | rotationX (v : JsArg ℚ)
  | rotationY (v : JsArg ℚ)
  | rotationZ (v : JsArg ℚ)
  | skewX (v : JsArg ℚ)
  | skewY (v : JsArg ℚ)
  | primaryColor (v : JsArg Color)
  | secondaryColor (v : JsArg Color)
  | outlineColor (v : JsArg Color)
  | shadowColor (v : JsArg Color)
  | primaryAlpha (v : JsArg ℚ)
  | secondaryAlpha (v : JsArg ℚ)
  | outlineAlpha (v : JsArg ℚ)
  | shadowAlpha (v : JsArg ℚ)
deriving DecidableEq, Repr

/-- Dispatch one setter call to the corresponding setter. -/
def applyCall (s : SpanStyles) : SetterCall → SpanStyles
  | .italic v => setItalic v s
  | .bold v => setBold v s
  | .underline v => setUnderline v s
  | .strikeThrough v => setStrikeThrough v s
  | .outlineWidth v => setOutlineWidth v s
  | .outlineHeight v => setOutlineHeight v s
  | .shadowDepthX v => setShadowDepthX v s
  | .shadowDepthY v => setShadowDepthY v s
  | .blur v => setBlur v s
  | .gaussianBlur v => setGaussianBlur v s
  | .fontName v => setFontName v s
  | .fontSize v => setFontSize v s
  | .fontScaleX v => setFontScaleX v s
  | .fontScaleY v => setFontScaleY v s
  | .letterSpacing v => setLetterSpacing v s
  | .rotationX v => setRotationX v s
  | .rotationY v => setRotationY v s
  | .rotationZ v => setRotationZ v s
  | .skewX v => setSkewX v s
  | .skewY v => setSkewY v s
  | .primaryColor v => setPrimaryColor v s
  | .secondaryColor v => setSecondaryColor v s
  | .outlineColor v => setOutlineColor v s
  | .shadowColor v => setShadowColor v s
  | .primaryAlpha v => setPrimaryAlpha v s
  | .secondaryAlpha v => setSecondaryAlpha v s
  | .outlineAlpha v => setOutlineAlpha v s
  | .shadowAlpha v => setShadowAlpha v s

/-- Apply a sequence of setter calls, left to right. -/
def applyCalls (s : SpanStyles) (calls : List SetterCall) : SpanStyles :=
  calls.foldl applyCall s

/-- Decimal value of a digit character, inverse to `Nat.digitChar` on
`0 … 9`; used to prove the generated animation names distinct. -/
def charVal (c : Char) : ℕ := c.toNat - 48

/-- Decode a decimal digit string, inverse to `decDigits`. -/
def decVal (l : List Char) : ℕ :=
  l.foldl (fun acc c => acc * 10 + charVal c) 0

/-- Fold `add` calls over an `AnimationCollection`, in order. -/
def addAll (st : AnimationCollection) (calls : List (String × List Keyframe)) :
    AnimationCollection :=
  calls.foldl (fun a c => add c.1 c.2 a) st

/-- A concrete base style used to instantiate witnesses. -/
def sampleStyle : Style :=
  { italic := false, bold := .ofBool false, underline := false, strikeThrough := false,
    outlineThickness := 1, shadowDepth := 1, fontName := "Arial", fontSize := 20,
    fontScaleX := 1, fontScaleY := 1, letterSpacing := 0, rotationZ := 0,
    primaryColor := ⟨255, 255, 255, 1⟩, secondaryColor := ⟨255, 255, 255, 1⟩,
    outlineColor := ⟨0, 0, 0, 1⟩, shadowColor := ⟨0, 0, 0, 1⟩ }

/-- Setters never touch the construction-time fields. -/
theorem applyCall_preserves (s : SpanStyles) (c : SetterCall) :
    (applyCall s c).defaultStyle = s.defaultStyle ∧
    (applyCall s c).scaleX = s.scaleX ∧ (applyCall s c).scaleY = s.scaleY := by
  cases c <;> exact ⟨rfl, rfl, rfl⟩

/-- Setter sequences never touch the construction-time fields. -/
theorem applyCalls_preserves (s : SpanStyles) (calls : List SetterCall) :
    (applyCalls s calls).defaultStyle = s.defaultStyle ∧
    (applyCalls s calls).scaleX = s.scaleX ∧ (applyCalls s calls).scaleY = s.scaleY := by
  induction calls generalizing s with
  | nil => exact ⟨rfl, rfl, rfl⟩
  | cons c cs ih =>
    have h1 := ih (applyCall s c)
    have h2 := applyCall_preserves s c
    exact ⟨h1.1.trans h2.1, (h1.2.1.trans h2.2.1), (h1.2.2.trans h2.2.2)⟩

/-- Results of `reset(null)` depend only on the construction-time fields. -/
theorem reset_null_congr (s1 s2 : SpanStyles) (hd : s1.defaultStyle = s2.defaultStyle)
    (hx : s1.scaleX = s2.scaleX) (hy : s1.scaleY = s2.scaleY) :
    reset s1 .null = reset s2 .null := by
  cases s1
  cases s2
  simp only at hd hx hy
  subst hd hx hy
  rfl

/-- Claim C1: for every attribute of the style state other than rotation-X/Y,
skew-X/Y, the four alpha overrides, and the two blur strengths, setting the
attribute to the `null` sentinel stores the base style's corresponding value
and setting a concrete value stores it unchanged; rotation-X/Y and skew-X/Y
store absent (`null`) and the two blur strengths store `0` when set to the
sentinel. -/
theorem claim_C1_setter_default_rules :
    (∀ (s : SpanStyles) (v : Bool), (setItalic (.val v) s).italic = .val v)
    ∧ (∀ (s : SpanStyles), (setItalic .null s).italic = .val s.defaultStyle.italic)
    ∧ (∀ (s : SpanStyles) (v : BoldVal), (setBold (.val v) s).bold = .val v)
    ∧ (∀ (s : SpanStyles), (setBold .null s).bold = .val s.defaultStyle.bold)
    ∧ (∀ (s : SpanStyles) (v : Bool), (setUnderline (.val v) s).underline = .val v)
    ∧ (∀ (s : SpanStyles), (setUnderline .null s).underline = .val s.defaultStyle.underline)
    ∧ (∀ (s : SpanStyles) (v : Bool), (setStrikeThrough (.val v) s).strikeThrough = .val v)
    ∧ (∀ (s : SpanStyles), (setStrikeThrough .null s).strikeThrough = .val s.defaultStyle.strikeThrough)
    ∧ (∀ (s : SpanStyles) (v : ℚ), (setOutlineWidth (.val v) s).outlineWidth = .val v)
    ∧ (∀ (s : SpanStyles), (setOutlineWidth .null s).outlineWidth = .val s.defaultStyle.outlineThickness)
    ∧ (∀ (s : SpanStyles) (v : ℚ), (setOutlineHeight (.val v) s).outlineHeight = .val v)
    ∧ (∀ (s : SpanStyles), (setOutlineHeight .null s).outlineHeight = .val s.defaultStyle.outlineThickness)
    ∧ (∀ (s : SpanStyles) (v : ℚ), (setShadowDepthX (.val v) s).shadowDepthX = .val v)
    ∧ (∀ (s : SpanStyles), (setShadowDepthX .null s).shadowDepthX = .val s.defaultStyle.shadowDepth)
    ∧ (∀ (s : SpanStyles) (v : ℚ), (setShadowDepthY (.val v) s).shadowDepthY = .val v)
    ∧ (∀ (s : SpanStyles), (setShadowDepthY .null s).shadowDepthY = .val s.defaultStyle.shadowDepth)
    ∧ (∀ (s : SpanStyles) (v : String), (setFontName (.val v) s).fontName = .val v)
    ∧ (∀ (s : SpanStyles), (setFontName .null s).fontName = .val s.defaultStyle.fontName)
    ∧ (∀ (s : SpanStyles) (v : ℚ), (setFontSize (.val v) s).fontSize = .val v)
    ∧ (∀ (s : SpanStyles), (setFontSize .null s).fontSize = .val s.defaultStyle.fontSize)
    ∧ (∀ (s : SpanStyles) (v : ℚ), (setFontScaleX (.val v) s).fontScaleX = .val v)
    ∧ (∀ (s : SpanStyles), (setFontScaleX .null s).fontScaleX = .val s.defaultStyle.fontScaleX)
    ∧ (∀ (s : SpanStyles) (v : ℚ), (setFontScaleY (.val v) s).fontScaleY = .val v)
    ∧ (∀ (s : SpanStyles), (setFontScaleY .null s).fontScaleY = .val s.defaultStyle.fontScaleY)
    ∧ (∀ (s : SpanStyles) (v : ℚ), (setLetterSpacing (.val v) s).letterSpacing = .val v)
    ∧ (∀ (s : SpanStyles), (setLetterSpacing .null s).letterSpacing = .val s.defaultStyle.letterSpacing)
    ∧ (∀ (s : SpanStyles) (v : ℚ), (setRotationZ (.val v) s).rotationZ = .val v)
    ∧ (∀ (s : SpanStyles), (setRotationZ .null s).rotationZ = .val s.defaultStyle.rotationZ)
    ∧ (∀ (s : SpanStyles) (v : Color), (setPrimaryColor (.val v) s).primaryColor = .val v)
    ∧ (∀ (s : SpanStyles), (setPrimaryColor .null s).primaryColor = .val s.defaultStyle.primaryColor)
    ∧ (∀ (s : SpanStyles) (v : Color), (setSecondaryColor (.val v) s).secondaryColor = .val v)
    ∧ (∀ (s : SpanStyles), (setSecondaryColor .null s).secondaryColor = .val s.defaultStyle.secondaryColor)
    ∧ (∀ (s : SpanStyles) (v : Color), (setOutlineColor (.val v) s).outlineColor = .val v)
    ∧ (∀ (s : SpanStyles), (setOutlineColor .null s).outlineColor = .val s.defaultStyle.outlineColor)
    ∧ (∀ (s : SpanStyles) (v : Color), (setShadowColor (.val v) s).shadowColor = .val v)
    ∧ (∀ (s : SpanStyles), (setShadowColor .null s).shadowColor = .val s.defaultStyle.shadowColor)
    ∧ (∀ (s : SpanStyles), (setRotationX .null s).rotationX = .null)
    ∧ (∀ (s : SpanStyles), (setRotationY .null s).rotationY = .null)
    ∧ (∀ (s : SpanStyles), (setSkewX .null s).skewX = .null)
    ∧ (∀ (s : SpanStyles), (setSkewY .null s).skewY = .null)
    ∧ (∀ (s : SpanStyles), (setBlur .null s).blur = .val 0)
    ∧ (∀ (s : SpanStyles), (setGaussianBlur .null s).gaussianBlur = .val 0) :=
  ⟨fun _ _ => rfl, fun _ => rfl, fun _ _ => rfl, fun _ => rfl, fun _ _ => rfl, fun _ => rfl,
   fun _ _ => rfl, fun _ => rfl, fun _ _ => rfl, fun _ => rfl, fun _ _ => rfl, fun _ => rfl,
   fun _ _ => rfl, fun _ => rfl, fun _ _ => rfl, fun _ => rfl, fun _ _ => rfl, fun _ => rfl,
   fun _ _ => rfl, fun _ => rfl, fun _ _ => rfl, fun _ => rfl, fun _ _ => rfl, fun _ => rfl,
   fun _ _ => rfl, fun _ => rfl, fun _ _ => rfl, fun _ => rfl, fun _ _ => rfl, fun _ => rfl,
   fun _ _ => rfl, fun _ => rfl, fun _ _ => rfl, fun _ => rfl, fun _ _ => rfl, fun _ => rfl,
   fun _ => rfl, fun _ => rfl, fun _ => rfl, fun _ => rfl, fun _ => rfl, fun _ => rfl⟩

/-- Claim C10: only the exact value `null` acts as the unset sentinel: every
setter that has a base-style or constant default stores `undefined` verbatim
instead of applying its default, whereas `reset` treats a `null` and an
`undefined` argument alike (both reinitialise from the base style). -/
theorem claim_C10_undefined_not_sentinel :
    (∀ (s : SpanStyles), (setItalic .undef s).italic = .undef)
    ∧ (∀ (s : SpanStyles), (setBold .undef s).bold = .undef)
    ∧ (∀ (s : SpanStyles), (setUnderline .undef s).underline = .undef)
    ∧ (∀ (s : SpanStyles), (setStrikeThrough .undef s).strikeThrough = .undef)
    ∧ (∀ (s : SpanStyles), (setOutlineWidth .undef s).outlineWidth = .undef)
    ∧ (∀ (s : SpanStyles), (setOutlineHeight .undef s).outlineHeight = .undef)
    ∧ (∀ (s : SpanStyles), (setShadowDepthX .undef s).shadowDepthX = .undef)
    ∧ (∀ (s : SpanStyles), (setShadowDepthY .undef s).shadowDepthY = .undef)
    ∧ (∀ (s : SpanStyles), (setBlur .undef s).blur = .undef)
    ∧ (∀ (s : SpanStyles), (setGaussianBlur .undef s).gaussianBlur = .undef)
    ∧ (∀ (s : SpanStyles), (setFontName .undef s).fontName = .undef)
    ∧ (∀ (s : SpanStyles), (setFontSize .undef s).fontSize = .undef)
    ∧ (∀ (s : SpanStyles), (setFontScaleX .undef s).fontScaleX = .undef)
    ∧ (∀ (s : SpanStyles), (setFontScaleY .undef s).fontScaleY = .undef)
    ∧ (∀ (s : SpanStyles), (setLetterSpacing .undef s).letterSpacing = .undef)
    ∧ (∀ (s : SpanStyles), (setRotationZ .undef s).rotationZ = .undef)
    ∧ (∀ (s : SpanStyles), (setPrimaryColor .undef s).primaryColor = .undef)
    ∧ (∀ (s : SpanStyles), (setSecondaryColor .undef s).secondaryColor = .undef)
    ∧ (∀ (s : SpanStyles), (setOutlineColor .undef s).outlineColor = .undef)
    ∧ (∀ (s : SpanStyles), (setShadowColor .undef s).shadowColor = .undef)
    ∧ (∀ (s : SpanStyles), reset s .undef = reset s .null)
    ∧ (∀ (s : SpanStyles), reset s (.val s.defaultStyle) = reset s .null) :=
  ⟨fun _ => rfl, fun _ => rfl, fun _ => rfl, fun _ => rfl, fun _ => rfl, fun _ => rfl,
   fun _ => rfl, fun _ => rfl, fun _ => rfl, fun _ => rfl, fun _ => rfl, fun _ => rfl,
   fun _ => rfl, fun _ => rfl, fun _ => rfl, fun _ => rfl, fun _ => rfl, fun _ => rfl,
   fun _ => rfl, fun _ => rfl, fun _ => rfl, fun _ => rfl⟩

/-- Claim C3: after any sequence of setter calls, `reset(null)` restores
every attribute to the base style's value; in particular rotation-X/Y and
skew-X/Y become absent (`null`), both blur strengths become `0`, and the
four alpha overrides become absent (`null`). -/
theorem claim_C3_reset_restores_defaults (s : SpanStyles) (calls : List SetterCall) :
    reset (applyCalls s calls) .null = reset s .null
    ∧ (reset (applyCalls s calls) .null).italic = .val s.defaultStyle.italic
    ∧ (reset (applyCalls s calls) .null).bold = .val s.defaultStyle.bold
    ∧ (reset (applyCalls s calls) .null).underline = .val s.defaultStyle.underline
    ∧ (reset (applyCalls s calls) .null).strikeThrough = .val s.defaultStyle.strikeThrough
    ∧ (reset (applyCalls s calls) .null).outlineWidth = .val s.defaultStyle.outlineThickness
    ∧ (reset (applyCalls s calls) .null).outlineHeight = .val s.defaultStyle.outlineThickness
    ∧ (reset (applyCalls s calls) .null).shadowDepthX = .val s.defaultStyle.shadowDepth
    ∧ (reset (applyCalls s calls) .null).shadowDepthY = .val s.defaultStyle.shadowDepth
    ∧ (reset (applyCalls s calls) .null).fontName = .val s.defaultStyle.fontName
    ∧ (reset (applyCalls s calls) .null).fontSize = .val s.defaultStyle.fontSize
    ∧ (reset (applyCalls s calls) .null).fontScaleX = .val s.defaultStyle.fontScaleX
    ∧ (reset (applyCalls s calls) .null).fontScaleY = .val s.defaultStyle.fontScaleY
    ∧ (reset (applyCalls s calls) .null).letterSpacing = .val s.defaultStyle.letterSpacing
    ∧ (reset (applyCalls s calls) .null).rotationZ = .val s.defaultStyle.rotationZ
    ∧ (reset (applyCalls s calls) .null).primaryColor = .val s.defaultStyle.primaryColor
    ∧ (reset (applyCalls s calls) .null).secondaryColor = .val s.defaultStyle.secondaryColor
    ∧ (reset (applyCalls s calls) .null).outlineColor = .val s.defaultStyle.outlineColor
    ∧ (reset (applyCalls s calls) .null).shadowColor = .val s.defaultStyle.shadowColor
    ∧ (reset (applyCalls s calls) .null).rotationX = .null
    ∧ (reset (applyCalls s calls) .null).rotationY = .null
    ∧ (reset (applyCalls s calls) .null).skewX = .null
    ∧ (reset (applyCalls s calls) .null).skewY = .null
    ∧ (reset (applyCalls s calls) .null).blur = .val 0
    ∧ (reset (applyCalls s calls) .null).gaussianBlur = .val 0
    ∧ (reset (applyCalls s calls) .null).primaryAlpha = .null
    ∧ (reset (applyCalls s calls) .null).secondaryAlpha = .null
    ∧ (reset (applyCalls s calls) .null).outlineAlpha = .null
    ∧ (reset (applyCalls s calls) .null).shadowAlpha = .null := by
  obtain ⟨hd, hx, hy⟩ := applyCalls_preserves s calls
  have hr : reset (applyCalls s calls) .null = reset s .null :=
    reset_null_congr _ _ hd hx hy
  rw [hr]
  exact ⟨rfl, rfl, rfl, rfl, rfl, rfl, rfl, rfl, rfl, rfl, rfl, rfl, rfl, rfl, rfl,
         rfl, rfl, rfl, rfl, rfl, rfl, rfl, rfl, rfl, rfl, rfl, rfl, rfl, rfl⟩

/-- Claim C4: the transform is the concatenation, in fixed order, of
(a) the vertical-only scale when the scales differ and the run is text-only,
or the independent X/Y scale components when it is not; (b) the Y-axis
rotation if present; (c) the X-axis rotation if present; (d) the Z-axis
rotation, sign-inverted, if non-zero; (e) the shear matrix from skew-X/Y
(each defaulting to 0 only at this step) if either skew is present — and a
non-empty transform forces the run's display to inline-block. -/
theorem claim_C4_transform_order (s : SpanStyles)
    (isTextOnlySpan enableSvg preciseOutlines : Bool) :
    (setStylesOnSpan s isTextOnlySpan enableSvg preciseOutlines).transform =
      (if isTextOnlySpan then
        (if s.fontScaleY ≠ s.fontScaleX then
          [TransformComponent.scaleYdiv (jsDiv (toNum s.fontScaleY) (toNum s.fontScaleX))]
        else [])
      else
        (if s.fontScaleX ≠ .val 1 then [TransformComponent.scaleXraw s.fontScaleX] else []) ++
        (if s.fontScaleY ≠ .val 1 then [TransformComponent.scaleYraw s.fontScaleY] else []))
      ++ (if s.rotationY ≠ .null then [TransformComponent.rotateY s.rotationY] else [])
      ++ (if s.rotationX ≠ .null then [TransformComponent.rotateX s.rotationX] else [])
      ++ (if s.rotationZ ≠ .val 0 then
            [TransformComponent.rotateZ (jsNeg (toNum s.rotationZ))] else [])
      ++ (if s.skewX ≠ .null ∨ s.skewY ≠ .null then
            [TransformComponent.matrixSkew (valueOrDefault s.skewY 0) (valueOrDefault s.skewX 0)]
          else [])
    ∧ ((setStylesOnSpan s isTextOnlySpan enableSvg preciseOutlines).transform ≠ [] →
        (setStylesOnSpan s isTextOnlySpan enableSvg preciseOutlines).spanDisplayInlineBlock = true) := by
  constructor
  · show transformOf s isTextOnlySpan = _
    simp only [transformOf, List.nil_append, List.append_assoc]
  · intro h
    exact decide_eq_true h

/-- Witness for claim C4 at a concrete style state with a Y-rotation set:
the transform is non-empty and the display is forced to inline-block. -/
theorem claim_C4_transform_order_witness :
    (setStylesOnSpan (setRotationY (.val 30) (SpanStyles.init sampleStyle 1 1))
        true true true).transform ≠ []
    ∧ (setStylesOnSpan (setRotationY (.val 30) (SpanStyles.init sampleStyle 1 1))
        true true true).spanDisplayInlineBlock = true := by
  have hne : (setStylesOnSpan (setRotationY (.val 30) (SpanStyles.init sampleStyle 1 1))
      true true true).transform ≠ [] := by decide
  exact ⟨hne,
    (claim_C4_transform_order (setRotationY (.val 30) (SpanStyles.init sampleStyle 1 1))
      true true true).2 hne⟩

/-- Claim C8 (code bug): on a freshly constructed/reset style state, neither
rotation has been set (`rotationX = rotationY = null`), yet the wrapper span
still receives `display: inline-block`, because the source guards the
assignment with `rotationX !== 0 || rotationY !== 0` and `null !== 0` is
true in JavaScript — contradicting the documented intent that the wrapper is
made block-level (exactly) when an X/Y rotation is present. -/
theorem claim_C8_wrapper_display_bug (style : Style) (sx sy : ℚ)
    (isTextOnlySpan enableSvg preciseOutlines : Bool) :
    (SpanStyles.init style sx sy).rotationX = .null
    ∧ (SpanStyles.init style sx sy).rotationY = .null
    ∧ (setStylesOnSpan (SpanStyles.init style sx sy)
        isTextOnlySpan enableSvg preciseOutlines).wrapperDisplayInlineBlock = true := by
  refine ⟨rfl, rfl, ?_⟩
  have hx : (SpanStyles.init style sx sy).rotationX = JsArg.null := rfl
  simp only [setStylesOnSpan]
  apply decide_eq_true
  exact Or.inl (by rw [hx]; exact fun h => JsArg.noConfusion h)

/-- Unfolding of the SVG outline walk in the equal-dimensions, positive case
(first branch: `ow ≤ oh` and `ow > 0`). -/
theorem svgOutlinePoints_eq_of_pos (W inc : ℚ) (hW : 0 < W) :
    svgOutlinePoints W W inc =
      (List.range (Int.toNat ⌊W / inc⌋ + 1)).map
        (fun (j : ℕ) => (((j : ℚ) * inc) ^ 2, W ^ 2 * (W ^ 2 - ((j : ℚ) * inc) ^ 2) / W ^ 2)) ++
      (if ((Int.toNat ⌊W / inc⌋ : ℚ)) * inc ≠ W then [(W ^ 2, 0)] else []) := by
  simp [svgOutlinePoints, hW, le_refl]

/-- Claim C2, corrected.  In SVG mode the claim holds: both dimensions zero
produce no dilation primitives, and width `0`, height `H > 0` produce
exactly one dilation at `(0, H)` (radii are encoded by their squares).  In
fallback mode, both dimensions zero produce no shadow entries, but width
`0`, height `H > 0` produce the `2⌊H⌋ + 1` entries `(0, 0)`, `(0, ±1)`, …,
`(0, ±⌊H⌋)` — not a single entry at `(0, H)`. -/
theorem claim_C2_amended (inc H : ℚ) (hH : 0 < H) :
    (svgOutlinePoints 0 0 inc = [] ∧ fallbackPoints 0 0 = [])
    ∧ svgOutlinePoints 0 H inc = [(0, H ^ 2)]
    ∧ fallbackPoints 0 H = (List.range (Int.toNat ⌊H⌋ + 1)).flatMap
        (fun y => if y = 0 then [((0 : ℤ), (0 : ℤ))]
                  else [((0 : ℤ), (y : ℤ)), ((0 : ℤ), -(y : ℤ))]) := by
  refine ⟨⟨by simp [svgOutlinePoints], by simp [fallbackPoints]⟩, ?_, ?_⟩
  · simp [svgOutlinePoints, hH, hH.le]
  · have hr1 : List.range 1 = [0] := rfl
    simp only [fallbackPoints, fallbackYCount, hH, hH.le, if_pos, or_true, le_refl,
      Int.floor_zero, Int.toNat_zero, Nat.zero_add, hr1, if_true, eq_self_iff_true,
      List.flatMap_cons, List.flatMap_nil, List.append_nil]
    apply List.flatMap_congr
    intro y _
    rcases Nat.eq_zero_or_pos y with hy | hy
    · subst hy; simp
    · simp [Nat.pos_iff_ne_zero.mp hy]

/-- Counterexample to claim C2 as stated: in fallback mode with scaled
outline width `0` and height `1`, the emitted shadow entries are
`(0,0), (0,1), (0,-1)` — not exactly one entry at `(0, 1)`. -/
theorem claim_C2_counterexample :
    fallbackPoints 0 1 = [(0, 0), (0, 1), (0, -1)]
    ∧ fallbackPoints 0 1 ≠ [((0 : ℤ), (1 : ℤ))] := by
  constructor <;> decide

/-- Witness for the corrected claim C2 at `H = 1`, `inc = 1`. -/
theorem claim_C2_amended_witness :
    (svgOutlinePoints 0 0 1 = [] ∧ fallbackPoints 0 0 = [])
    ∧ svgOutlinePoints 0 1 1 = [(0, 1)]
    ∧ fallbackPoints 0 1 = [(0, 0), (0, 1), (0, -1)] := by
  have h := claim_C2_amended 1 1 (by norm_num)
  refine ⟨h.1, by rw [h.2.1]; norm_num, by rw [h.2.2]; decide⟩

/-- Claim C9, corrected.  For `outlineWidth = outlineHeight = W > 0` (equal
axis scales) the walk always emits both extreme radii `(0, W)` and `(W, 0)`
(which the axis swap exchanges), and the emitted set is symmetric under
swapping the two axes whenever the step increment is at least `W` — but not
in general: interior sample points need not have swapped counterparts.
Radii are encoded by their squares. -/
theorem claim_C9_amended (W inc : ℚ) (hW : 0 < W) (hinc : 0 < inc) :
    ((0, W ^ 2) ∈ svgOutlinePoints W W inc ∧ (W ^ 2, 0) ∈ svgOutlinePoints W W inc)
    ∧ (W ≤ inc →
        ∀ p, p ∈ svgOutlinePoints W W inc ↔ p.swap ∈ svgOutlinePoints W W inc) := by
  have hW0 : W ≠ 0 := ne_of_gt hW
  have hL := svgOutlinePoints_eq_of_pos W inc hW
  have hf0 : (((0 : ℕ) : ℚ) * inc) ^ 2 = 0 := by norm_num
  have hsnd0 : W ^ 2 * (W ^ 2 - 0) / W ^ 2 = W ^ 2 := by
    field_simp
  constructor
  · constructor
    · rw [hL]
      refine List.mem_append_left _ (List.mem_map.2 ⟨0, List.mem_range.2 (Nat.succ_pos _), ?_⟩)
      rw [hf0, hsnd0]
    · by_cases hX : ((Int.toNat ⌊W / inc⌋ : ℚ)) * inc = W
      · rw [hL]
        refine List.mem_append_left _
          (List.mem_map.2 ⟨Int.toNat ⌊W / inc⌋, List.mem_range.2 (Nat.lt_succ_self _), ?_⟩)
        rw [hX]
        simp
      · rw [hL, if_pos hX]
        exact List.mem_append_right _ (List.mem_singleton.2 rfl)
  · intro hle
    have hLtwo : svgOutlinePoints W W inc = [(0, W ^ 2), (W ^ 2, 0)] := by
      rcases lt_or_eq_of_le hle with hlt | heq
      · have hfl : ⌊W / inc⌋ = 0 := by
          rw [Int.floor_eq_zero_iff]
          exact ⟨le_of_lt (div_pos hW hinc), (div_lt_one hinc).2 hlt⟩
        rw [hL, hfl]
        have hT : ((Int.toNat (0 : ℤ) : ℚ)) * inc ≠ W := by
          simpa using ne_of_lt hW
        rw [if_pos hT]
        have hr1 : List.range (Int.toNat (0 : ℤ) + 1) = [0] := rfl
        rw [hr1]
        simp only [List.map_cons, List.map_nil, hf0, hsnd0, List.singleton_append]
      · have hinc_eq : inc = W := heq.symm
        have hfl : ⌊W / inc⌋ = 1 := by
          rw [hinc_eq, div_self hW0]
          exact Int.floor_one
        rw [hL, hfl]
        have hT : ((Int.toNat (1 : ℤ) : ℚ)) * inc = W := by
          rw [hinc_eq]
          norm_num
        rw [if_neg (not_not_intro hT)]
        have hr2 : List.range (Int.toNat (1 : ℤ) + 1) = [0, 1] := rfl
        rw [hr2]
        simp only [List.map_cons, List.map_nil, hf0, hsnd0, List.append_nil]
        have h1 : (((1 : ℕ) : ℚ) * inc) ^ 2 = W ^ 2 := by rw [hinc_eq]; norm_num
        have h2 : W ^ 2 * (W ^ 2 - W ^ 2) / W ^ 2 = 0 := by simp
        rw [h1, h2]
    intro p
    obtain ⟨x, y⟩ := p
    rw [hLtwo]
    simp only [List.mem_cons, List.mem_singleton, List.not_mem_nil, or_false,
      Prod.mk.injEq, Prod.swap_prod_mk]
    tauto

/-- Counterexample to claim C9 as stated: for `outlineWidth = outlineHeight
= 2` (unit scales, step 1) the walk emits the squared radii
`(0, 4), (1, 3), (4, 0)` — i.e. the radii `(0,2), (1,√3), (2,0)` — and the
interior point `(1, √3)` has no swapped counterpart `(√3, 1)`, so the
emitted set is not symmetric under swapping the axes. -/
theorem claim_C9_counterexample :
    svgOutlinePoints 2 2 1 = [(0, 4), (1, 3), (4, 0)]
    ∧ ¬ (∀ p ∈ svgOutlinePoints 2 2 1, p.swap ∈ svgOutlinePoints 2 2 1) := by
  have e : svgOutlinePoints 2 2 1 = [(0, 4), (1, 3), (4, 0)] := by
    norm_num [svgOutlinePoints]
    norm_num [show Int.toNat 2 = 2 from rfl, List.range_succ]
  refine ⟨e, fun h => ?_⟩
  have h13 := h (1, 3) (by rw [e]; simp)
  rw [e] at h13
  norm_num [Prod.swap] at h13

/-- Witness for the corrected claim C9 at `W = 1`, `inc = 2`. -/
theorem claim_C9_amended_witness :
    ((0, 1) ∈ svgOutlinePoints 1 1 2 ∧ (1, 0) ∈ svgOutlinePoints 1 1 2)
    ∧ (∀ p, p ∈ svgOutlinePoints 1 1 2 ↔ p.swap ∈ svgOutlinePoints 1 1 2) := by
  have h := claim_C9_amended 1 2 (by norm_num) (by norm_num)
  refine ⟨?_, h.2 (by norm_num)⟩
  have h1 := h.1
  norm_num at h1
  exact h1

/-- After any `_getFontSize` call, its key is present in the cache and maps
to the value the call returned. -/
theorem getFontSize_caches (measure : String → ℚ → ℚ) (f : String) (sz : ℚ)
    (c : FontCache) :
    ∃ m, (getFontSize measure f sz c).2.1 f = some m
      ∧ m sz = some (getFontSize measure f sz c).1 := by
  rcases hc : c f with _ | m
  · refine ⟨fun ht => if ht = sz then some (sz * sz / measure f sz) else none, ?_, ?_⟩ <;>
      simp [getFontSize, hc]
  · rcases hm : m sz with _ | v
    · refine ⟨fun ht => if ht = sz then some (sz * sz / measure f sz) else m ht, ?_, ?_⟩ <;>
        simp [getFontSize, hc, hm]
    · exact ⟨m, by simp [getFontSize, hc, hm], by simp [getFontSize, hc, hm]⟩

/-- A `_getFontSize` call whose key is already cached reads nothing, leaves
the cache unchanged, and returns the cached value. -/
theorem getFontSize_hit (measure : String → ℚ → ℚ) (f : String) (sz : ℚ)
    (c : FontCache) (m : ℚ → Option ℚ) (v : ℚ)
    (hc : c f = some m) (hm : m sz = some v) :
    (getFontSize measure f sz c).1 = v
    ∧ (getFontSize measure f sz c).2.1 = c
    ∧ (getFontSize measure f sz c).2.2 = false := by
  refine ⟨?_, ?_, ?_⟩ <;> simp [getFontSize, hc, hm]

/-- The cache only grows: a cached key stays cached across any call. -/
theorem getFontSize_mono (measure : String → ℚ → ℚ) (f : String) (sz : ℚ)
    (c : FontCache) (f2 : String) (s2 : ℚ)
    (h : ∃ m v, c f2 = some m ∧ m s2 = some v) :
    ∃ m v, (getFontSize measure f sz c).2.1 f2 = some m ∧ m s2 = some v := by
  obtain ⟨m2, v2, hc2, hm2⟩ := h
  by_cases hf : f2 = f
  · subst hf
    rcases hm : m2 sz with _ | v
    · have hs : s2 ≠ sz := fun h => by rw [h, hm] at hm2; exact Option.noConfusion hm2
      refine ⟨fun ht => if ht = sz then some (sz * sz / measure f2 sz) else m2 ht, v2, ?_, ?_⟩
      · simp [getFontSize, hc2, hm]
      · simp [hs, hm2]
    · exact ⟨m2, v2, by simp [getFontSize, hc2, hm], hm2⟩
  · rcases hcf : c f with _ | m
    · exact ⟨m2, v2, by simp [getFontSize, hcf, hf, hc2], hm2⟩
    · rcases hmf : m sz with _ | v
      · exact ⟨m2, v2, by simp [getFontSize, hcf, hmf, hf, hc2], hm2⟩
      · exact ⟨m2, v2, by simp [getFontSize, hcf, hmf, hc2], hm2⟩

/-- Measurement accounting over a call sequence: if the key is already
cached no later call measures it, and in any case it is measured at most
once. -/
theorem runFontCalls_count (measure : String → ℚ → ℚ) (reqs : List (String × ℚ))
    (c : FontCache) (f : String) (sz : ℚ) :
    ((∃ m v, c f = some m ∧ m sz = some v) →
      List.count (f, sz) (runFontCalls measure reqs c).2 = 0)
    ∧ List.count (f, sz) (runFontCalls measure reqs c).2 ≤ 1 := by
  induction reqs generalizing c with
  | nil => exact ⟨fun _ => rfl, by simp [runFontCalls]⟩
  | cons q rest ih =>
    obtain ⟨g, t⟩ := q
    have hstep : (runFontCalls measure ((g, t) :: rest) c).2 =
        (if (getFontSize measure g t c).2.2 then [(g, t)] else []) ++
        (runFontCalls measure rest (getFontSize measure g t c).2.1).2 := rfl
    constructor
    · intro hhas
      rw [hstep, List.count_append]
      by_cases hkey : (g, t) = (f, sz)
      · have h1 : g = f := congrArg Prod.fst hkey
        have h2 : t = sz := congrArg Prod.snd hkey
        subst h1
        subst h2
        obtain ⟨m, v, hc, hm⟩ := hhas
        obtain ⟨_, hcu, hfalse⟩ := getFontSize_hit measure g t c m v hc hm
        rw [hfalse, hcu]
        simpa using (ih c).1 ⟨m, v, hc, hm⟩
      · have hrest := (ih ((getFontSize measure g t c).2.1)).1
          (getFontSize_mono measure g t c f sz hhas)
        rw [hrest]
        by_cases hmeas : (getFontSize measure g t c).2.2 <;>
          simp [hmeas, List.count_cons, beq_iff_eq, Ne.symm hkey]
    · rw [hstep, List.count_append]
      by_cases hkey : (g, t) = (f, sz)
      · have h1 : g = f := congrArg Prod.fst hkey
        have h2 : t = sz := congrArg Prod.snd hkey
        subst h1
        subst h2
        by_cases hmeas : (getFontSize measure g t c).2.2
        · obtain ⟨m, hcm, hmv⟩ := getFontSize_caches measure g t c
          have hrest := (ih ((getFontSize measure g t c).2.1)).1 ⟨m, _, hcm, hmv⟩
          rw [hrest]
          simp [hmeas, List.count_cons]
        · have hrest := (ih ((getFontSize measure g t c).2.1)).2
          simpa [hmeas] using hrest
      · have hrest := (ih ((getFontSize measure g t c).2.1)).2
        have hzero : List.count (f, sz)
            (if (getFontSize measure g t c).2.2 then [(g, t)] else []) = 0 := by
          by_cases hmeas : (getFontSize measure g t c).2.2 <;>
            simp [hmeas, List.count_cons, beq_iff_eq, Ne.symm hkey]
        rw [hzero]
        simpa using hrest

/-- Claim C7: starting from the empty process-wide cache, any sequence of
font-size lookups reads the measurement surface at most once per distinct
`(fontFamily, pixelSize)` pair; a repeated lookup performs no measurement
and returns the same value; and the cached value is
`pixelSize² / measuredHeight`. -/
theorem claim_C7_font_size_cache (measure : String → ℚ → ℚ)
    (reqs : List (String × ℚ)) (f : String) (sz : ℚ) :
    List.count (f, sz) (runFontCalls measure reqs emptyFontCache).2 ≤ 1
    ∧ (∀ c : FontCache,
        (getFontSize measure f sz (getFontSize measure f sz c).2.1).2.2 = false
        ∧ (getFontSize measure f sz (getFontSize measure f sz c).2.1).1
            = (getFontSize measure f sz c).1)
    ∧ (getFontSize measure f sz emptyFontCache).1 = sz * sz / measure f sz := by
  refine ⟨(runFontCalls_count measure reqs emptyFontCache f sz).2, ?_, ?_⟩
  · intro c
    obtain ⟨m, hcm, hmv⟩ := getFontSize_caches measure f sz c
    obtain ⟨hv, _, hfalse⟩ :=
      getFontSize_hit measure f sz ((getFontSize measure f sz c).2.1) m _ hcm hmv
    exact ⟨hfalse, hv⟩
  · simp [getFontSize, emptyFontCache]

/-- Unfolding of `decDigits` on a single digit. -/
theorem decDigits_lt {n : ℕ} (h : n < 10) : decDigits n = [Nat.digitChar n] := by
  rw [decDigits]
  simp [h]

/-- Unfolding of `decDigits` on a multi-digit number. -/
theorem decDigits_ge {n : ℕ} (h : ¬ n < 10) :
    decDigits n = decDigits (n / 10) ++ [Nat.digitChar (n % 10)] := by
  rw [decDigits]
  simp [h]

/-- Digit decoding inverts `Nat.digitChar` on decimal digits. -/
theorem charVal_digitChar : ∀ n < 10, charVal (Nat.digitChar n) = n := by
  decide

/-- Folding decode over an appended digit. -/
theorem decVal_append (l : List Char) (c : Char) :
    decVal (l ++ [c]) = decVal l * 10 + charVal c := by
  simp [decVal, List.foldl_append]

/-- Decoding inverts rendering: `decVal (decDigits n) = n`. -/
theorem decVal_decDigits (n : ℕ) : decVal (decDigits n) = n := by
  induction n using Nat.strong_induction_on with
  | _ n ih =>
    by_cases h : n < 10
    · rw [decDigits_lt h]
      simpa [decVal] using charVal_digitChar n h
    · rw [decDigits_ge h, decVal_append,
        ih (n / 10) (Nat.div_lt_self (by omega) (by omega)),
        charVal_digitChar (n % 10) (Nat.mod_lt _ (by omega))]
      omega

/-- Decimal rendering of naturals is injective. -/
theorem decDigits_injective : Function.Injective decDigits := by
  intro a b h
  have h2 := congrArg decVal h
  rwa [decVal_decDigits, decVal_decDigits] at h2

/-- String concatenation acts as concatenation of character data. -/
theorem string_data_append (s t : String) : (s ++ t).data = s.data ++ t.data := by
  cases s
  cases t
  rfl

/-- Within one instance, distinct counters yield distinct animation names. -/
theorem animationName_injective (id : String) : Function.Injective (animationName id) := by
  intro a b h
  apply decDigits_injective
  have hd := congrArg String.data h
  simp only [animationName, string_data_append] at hd
  have ha : ((List.asString (decDigits a)).data) = decDigits a := rfl
  have hb : ((List.asString (decDigits b)).data) = decDigits b := rfl
  rw [ha, hb] at hd
  simp only [List.append_assoc] at hd
  exact List.append_cancel_left (List.append_cancel_left (List.append_cancel_left hd))

/-- Claim C5: for a non-empty keyframe list, `add` emits one vendor-prefixed
and one standard rule block under a fresh name, each keyframe placed at
percentage `100 × (time − start)/(end − start)` with `start`/`end` the
first/last keyframe times — except that when `end = start` every keyframe is
placed at `100 × 1 = 100%`. -/
theorem claim_C5_keyframe_percentages (st : AnimationCollection) (tf : String)
    (kfs : List Keyframe) (h : kfs ≠ []) :
    (add tf kfs st).cssBlocks = st.cssBlocks ++
      [(true, animationName st.id st.numAnimations,
        kfs.map fun k =>
          (100 * (if (kfs.getLast h).time - (kfs.head h).time = 0 then 1
                  else (k.time - (kfs.head h).time) /
                       ((kfs.getLast h).time - (kfs.head h).time)),
           k.properties)),
       (false, animationName st.id st.numAnimations,
        kfs.map fun k =>
          (100 * (if (kfs.getLast h).time - (kfs.head h).time = 0 then 1
                  else (k.time - (kfs.head h).time) /
                       ((kfs.getLast h).time - (kfs.head h).time)),
           k.properties))]
    ∧ ((kfs.getLast h).time = (kfs.head h).time →
        ∀ r ∈ (add tf kfs st).cssBlocks.drop st.cssBlocks.length,
          ∀ rule ∈ r.2.2, rule.1 = 100) := by
  have hh : kfs.head? = some (kfs.head h) := List.head?_eq_head h
  have hl : kfs.getLast? = some (kfs.getLast h) := List.getLast?_eq_getLast_of_ne_nil h
  have hmain : (add tf kfs st).cssBlocks = st.cssBlocks ++
      [(true, animationName st.id st.numAnimations,
        kfs.map fun k =>
          (100 * (if (kfs.getLast h).time - (kfs.head h).time = 0 then 1
                  else (k.time - (kfs.head h).time) /
                       ((kfs.getLast h).time - (kfs.head h).time)),
           k.properties)),
       (false, animationName st.id st.numAnimations,
        kfs.map fun k =>
          (100 * (if (kfs.getLast h).time - (kfs.head h).time = 0 then 1
                  else (k.time - (kfs.head h).time) /
                       ((kfs.getLast h).time - (kfs.head h).time)),
           k.properties))] := by
    simp [add, hh, hl, jsArgNumOrZero]
  refine ⟨hmain, fun he r hr rule hrule => ?_⟩
  rw [hmain, List.drop_left] at hr
  simp only [List.mem_cons, List.not_mem_nil, or_false] at hr
  have hr22 : r.2.2 = kfs.map fun k =>
      (100 * (if (kfs.getLast h).time - (kfs.head h).time = 0 then 1
              else (k.time - (kfs.head h).time) /
                   ((kfs.getLast h).time - (kfs.head h).time)),
       k.properties) := by
    rcases hr with rfl | rfl <;> rfl
  rw [hr22] at hrule
  obtain ⟨k, _, hk⟩ := List.mem_map.1 hrule
  rw [← hk]
  simp [he, sub_self]

/-- Witness for claim C5: keyframes at times `[0, 0]` produce one animation
whose rule blocks are all at 100%. -/
theorem claim_C5_keyframe_percentages_witness :
    ([(⟨0, []⟩ : Keyframe), ⟨0, []⟩] : List Keyframe) ≠ []
    ∧ (add "linear" [⟨0, []⟩, ⟨0, []⟩] (AnimationCollection.init "0" 1)).cssBlocks =
        [(true, "animation-0-0", [(100, []), (100, [])]),
         (false, "animation-0-0", [(100, []), (100, [])])]
    ∧ (∀ r ∈ (add "linear" [⟨0, []⟩, ⟨0, []⟩]
          (AnimationCollection.init "0" 1)).cssBlocks.drop
          (AnimationCollection.init "0" 1).cssBlocks.length,
        ∀ rule ∈ r.2.2, rule.1 = 100) := by
  have hne : ([(⟨0, []⟩ : Keyframe), ⟨0, []⟩] : List Keyframe) ≠ [] := by simp
  have h := claim_C5_keyframe_percentages (AnimationCollection.init "0" 1) "linear"
    [⟨0, []⟩, ⟨0, []⟩] hne
  refine ⟨hne, ?_, h.2 rfl⟩
  rw [h.1]
  have hname : animationName "0" 0 = "animation-0-0" := by
    rw [animationName, decDigits_lt (by norm_num)]
    rfl
  simp [hname, AnimationCollection.init]

/-- Step lemma for claim C6: one `add` call appends exactly one entry (under
the name built from the current counter) to the composite directive and the
delay table, and advances the counter by one. -/
theorem add_appends_one (tf : String) (kfs : List Keyframe) (st : AnimationCollection) :
    (add tf kfs st).animationDelays.map Prod.fst
      = st.animationDelays.map Prod.fst ++ [animationName st.id st.numAnimations]
    ∧ (add tf kfs st).animationStyle.map (fun e => e.1)
      = st.animationStyle.map (fun e => e.1) ++ [animationName st.id st.numAnimations]
    ∧ (add tf kfs st).numAnimations = st.numAnimations + 1
    ∧ (add tf kfs st).id = st.id := by
  refine ⟨?_, ?_, rfl, rfl⟩ <;> simp [add]

/-- Accumulated form of the names generated by a sequence of `add` calls. -/
theorem addAll_names (st : AnimationCollection) (calls : List (String × List Keyframe)) :
    (addAll st calls).animationDelays.map Prod.fst
      = st.animationDelays.map Prod.fst ++
        (List.range calls.length).map (fun k => animationName st.id (st.numAnimations + k))
    ∧ (addAll st calls).animationStyle.map (fun e => e.1)
      = st.animationStyle.map (fun e => e.1) ++
        (List.range calls.length).map (fun k => animationName st.id (st.numAnimations + k))
    ∧ (addAll st calls).numAnimations = st.numAnimations + calls.length
    ∧ (addAll st calls).id = st.id := by
  induction calls generalizing st with
  | nil => simp [addAll]
  | cons c cs ih =>
    have hstep : addAll st (c :: cs) = addAll (add c.1 c.2 st) cs := rfl
    obtain ⟨hd1, hs1, hn1, hid1⟩ := add_appends_one c.1 c.2 st
    obtain ⟨hd2, hs2, hn2, hid2⟩ := ih (add c.1 c.2 st)
    have hfun : (fun k => animationName (add c.1 c.2 st).id
          ((add c.1 c.2 st).numAnimations + k))
        = (fun k => animationName st.id (st.numAnimations + (k + 1))) := by
      funext k
      rw [hid1, hn1]
      congr 1
      omega
    have hrange : (List.range (cs.length + 1)).map
          (fun k => animationName st.id (st.numAnimations + k))
        = animationName st.id st.numAnimations ::
          (List.range cs.length).map
            (fun k => animationName st.id (st.numAnimations + (k + 1))) := by
      rw [List.range_succ_eq_map, List.map_cons, List.map_map]
      simp [Function.comp, Nat.add_comm, Nat.add_assoc, Nat.add_left_comm]
    refine ⟨?_, ?_, ?_, ?_⟩
    · rw [hstep, hd2, hd1, hfun, List.length_cons, hrange]
      simp
    · rw [hstep, hs2, hs1, hfun, List.length_cons, hrange]
      simp
    · rw [hstep, hn2, hn1, List.length_cons]
      omega
    · rw [hstep, hid2, hid1]

/-- Claim C6: starting from a fresh instance, `N` calls to `add` produce
exactly `N` named animations, with the pairwise-distinct deterministic names
`animation-<id>-0 … animation-<id>-(N−1)`, in call order, in both the
composite directive and the delay table. -/
theorem claim_C6_animation_names (id : String) (rate : ℚ)
    (calls : List (String × List Keyframe)) :
    (addAll (AnimationCollection.init id rate) calls).animationDelays.map Prod.fst
      = (List.range calls.length).map (animationName id)
    ∧ (addAll (AnimationCollection.init id rate) calls).animationStyle.map (fun e => e.1)
      = (List.range calls.length).map (animationName id)
    ∧ (addAll (AnimationCollection.init id rate) calls).numAnimations = calls.length
    ∧ ((List.range calls.length).map (animationName id)).Nodup := by
  obtain ⟨hd, hs, hn, _⟩ := addAll_names (AnimationCollection.init id rate) calls
  have hfun : (fun k => animationName (AnimationCollection.init id rate).id
        ((AnimationCollection.init id rate).numAnimations + k)) = animationName id := by
    funext k
    simp [AnimationCollection.init]
  refine ⟨?_, ?_, ?_, ?_⟩
  · rw [hd, hfun]
    rfl
  · rw [hs, hfun]
    rfl
  · rw [hn]
    simp [AnimationCollection.init]
  · exact (List.nodup_range _).map (animationName_injective id)

end Libjass
